import Mathlib

/-!
Verification of the call/session orchestration engine of the customer-agent
repository against its specification.

Shallow embedding: the Python source (app/background/state_store.py,
app/services/twilio_voice.py, app/api/voice_routes.py,
app/services/conversation.py) is translated into pure Lean functions;
stateful methods become explicit state-passing functions, webhook handlers
become transition functions on the per-call record and the stored session
state, and external side effects (Twilio REST redirects, outbound stream
frames) are collected as explicit action lists.
-/

namespace CustomerAgent

/-! ## Session state store (app/background/state_store.py)

The store maps a session id to the serialized ConversationState record.
We model the record by its optimistic-locking version plus an opaque
payload standing for all remaining serialized fields, and the in-memory
store (the deterministic branch of StateStore; the Redis branch implements
the same compare-and-set with WATCH/MULTI) as an association list. -/

structure SRecord where
  version : Nat
  payload : String
  deriving DecidableEq, Repr

/-- Association-list lookup, the embedding of dict.get. -/
def alookup {α : Type} : List (String × α) → String → Option α
  | [], _ => none
  | (k, v) :: rest, key => if k = key then some v else alookup rest key

/-- Association-list update, the embedding of dict.__setitem__. -/
def aset {α : Type} : List (String × α) → String → α → List (String × α)
  | [], key, v => [(key, v)]
  | (k, w) :: rest, key, v =>
    if k = key then (key, v) :: rest else (k, w) :: aset rest key v

/-- Association-list removal, the embedding of dict.pop(key, None). -/
def aremove {α : Type} : List (String × α) → String → List (String × α)
  | [], _ => []
  | (k, w) :: rest, key =>
    if k = key then aremove rest key else (k, w) :: aremove rest key

def Store : Type := List (String × SRecord)

/-- Embedding of StateStore.set_state_if_version (memory branch,
state_store.py lines 186-203): reject with False when a record is stored
under the session and its version differs from expected_version; otherwise
persist the new record with version expected_version + 1 and return True.
last_updated is not modelled (wall-clock time). -/
def setStateIfVersion (store : Store) (sessionId : String) (st : SRecord)
    (expectedVersion : Nat) : Store × Bool :=
  let conflict :=
    match alookup store sessionId with
    | some cur => cur.version != expectedVersion
    | none => false
  if conflict then (store, false)
  else (aset store sessionId { st with version := expectedVersion + 1 }, true)

/-! ## Voice pipeline (app/services/twilio_voice.py)

The TwilioVoiceService class constants and the per-call ActiveCall record.
An inbound audio frame is modelled by its RMS energy (audioop.rms of the
decompanded 160-byte 20ms frame); the audio buffer is modelled as the list
of buffered frames, one entry per frame appended (the byte concatenation of
the source, at frame granularity). -/

def SILENCE_THRESHOLD : Nat := 500

def MIN_SILENCE_FRAMES : Nat := 30

def MIN_SPEECH_FRAMES : Nat := 5

def MAX_RETRIES : Nat := 3

inductive CallState
  | connecting
  | aiConversation
  | processing
  | escalating
  | inConference
  | ended
  deriving DecidableEq, Repr

inductive HumanCallStatus
  | statusNone
  | calling
  | ringing
  | waitingConfirmation
  | confirmed
  | inConference
  | failed
  | completed
  deriving DecidableEq, Repr

inductive HumanAgentStatus
  | checking
  | calling
  | ringing
  | waiting
  | available
  | unavailable
  | connected
  deriving DecidableEq, Repr

/-- A pending event queued on the call (queue_event); the wall-clock
timestamp field is not modelled. -/
structure CallEvent where
  etype : String
  message : String
  deriving DecidableEq, Repr

/-- Embedding of the ActiveCall dataclass (twilio_voice.py lines 56-83).
Fields not touched by any claim (customer display fields, transcript,
created_at, human_status_message) are omitted. Field-name changes forced by
the Lean gate: buffer = audio_buffer, speaking = is_speaking,
playing = is_playing_audio, bargeIn = barge_in_requested. -/
structure ActiveCall where
  callSid : String
  sessionId : String
  streamSid : Option String := none
  state : CallState := CallState.connecting
  conferenceName : Option String := none
  humanCallSid : Option String := none
  buffer : List Nat := []
  silenceFrames : Nat := 0
  speaking : Bool := false
  humanCallStatus : HumanCallStatus := HumanCallStatus.statusNone
  escalationReason : Option String := none
  escalationReturnReason : Option String := none
  pendingEvents : List CallEvent := []
  playing : Bool := false
  bargeIn : Bool := false
  deriving DecidableEq, Repr

/-- The stored ConversationState fields driven by the escalation webhook
handlers (schemas/state.py lines 171-172). -/
structure SessState where
  humanAgentStatus : Option HumanAgentStatus := none
  escalationInProgress : Bool := false
  deriving DecidableEq, Repr

/-- Embedding of TwilioVoiceService.process_audio_chunk (twilio_voice.py
lines 357-415), restricted to one registered call. Returns the updated
call and, when an utterance ended, the buffered segment handed to
_process_utterance. The internals of _process_utterance (STT, LLM, TTS
and its transient CallState.PROCESSING excursion) are external
collaborators and are not modelled; the buffer clear and silence-counter
reset that follow it in the source are. -/
def processAudioChunk (call : ActiveCall) (energy : Nat) :
    ActiveCall × Option (List Nat) :=
  if SILENCE_THRESHOLD < energy then
    let c1 := { call with silenceFrames := 0 }
    let c2 :=
      if c1.speaking then c1
      else
        { c1 with
            speaking := true,
            bargeIn := if c1.playing then true else c1.bargeIn }
    ({ c2 with buffer := c2.buffer ++ [energy] }, none)
  else
    if call.speaking then
      let c1 := { call with
                    silenceFrames := call.silenceFrames + 1,
                    buffer := call.buffer ++ [energy] }
      if MIN_SILENCE_FRAMES ≤ c1.silenceFrames then
        ({ c1 with speaking := false, buffer := [], silenceFrames := 0 },
         some c1.buffer)
      else (c1, none)
    else (call, none)

/-- Feed a whole energy trace through process_audio_chunk, collecting the
emitted utterances in order. -/
def runVad (call : ActiveCall) : List Nat → ActiveCall × List (List Nat)
  | [] => (call, [])
  | e :: rest =>
    let step := processAudioChunk call e
    let next := runVad step.1 rest
    (next.1, step.2.toList ++ next.2)

/-- Embedding of TwilioVoiceService.set_playing_audio (twilio_voice.py
lines 686-692): record the playback state; when playback stops, also clear
the barge-in flag. -/
def setPlaying (call : ActiveCall) (isPlaying : Bool) : ActiveCall :=
  { call with
      playing := isPlaying,
      bargeIn := if isPlaying then call.bargeIn else false }

/-- Embedding of TwilioVoiceService.queue_event (twilio_voice.py lines
650-671): append the event and request barge-in when audio is playing. -/
def queueEvent (call : ActiveCall) (etype msg : String) : ActiveCall :=
  let c1 := { call with pendingEvents := call.pendingEvents ++ [CallEvent.mk etype msg] }
  if c1.playing then { c1 with bargeIn := true } else c1

/-- An outbound frame of send_audio_to_stream: either the media message
carrying the fixed-size (160-byte) chunk with the given index, or the
provider clear control frame. -/
inductive StreamMsg
  | media (chunkIdx : Nat)
  | clear
  deriving DecidableEq, Repr

/-- The chunk loop of send_audio_to_stream (voice_routes.py lines 738-773).
flagAt i is the value of the barge-in flag the loop observes at the
boundary before chunk i (the flag itself is set concurrently by
process_audio_chunk or queue_event; the oracle records the interleaving).
On an observed flag the loop emits the clear control frame and stops. -/
def sendChunks (flagAt : Nat → Bool) : Nat → Nat → List StreamMsg
  | _, 0 => []
  | i, rem + 1 =>
    if flagAt i then [StreamMsg.clear]
    else StreamMsg.media i :: sendChunks flagAt (i + 1) rem

/-- Embedding of send_audio_to_stream (voice_routes.py lines 712-790) for a
payload of numChunks fixed-size chunks: set_playing_audio(True), run the
chunk loop, set_playing_audio(False). Returns the call after playback fully
stopped and the outbound frames in order. -/
def sendAudioStream (call : ActiveCall) (flagAt : Nat → Bool) (numChunks : Nat) :
    ActiveCall × List StreamMsg :=
  let c1 := setPlaying call true
  let msgs := sendChunks flagAt 0 numChunks
  (setPlaying c1 false, msgs)

/-! ## Escalation webhook handlers (twilio_voice.py) -/

/-- A call to the Twilio REST API redirecting an in-progress call leg to a
new TwiML URL (client.calls(sid).update(url=...)); the webhook base URL is
abstracted away. -/
inductive ExtAction
  | redirect (url : String)
  deriving DecidableEq, Repr

/-- The status_mapping dict of update_human_call_status (twilio_voice.py
lines 823-833), with dict.get returning none off the keys. -/
def statusMapping (frontend : String) : Option HumanAgentStatus :=
  if frontend = "calling" then some HumanAgentStatus.calling
  else if frontend = "ringing" then some HumanAgentStatus.ringing
  else if frontend = "waiting_confirmation" then some HumanAgentStatus.waiting
  else if frontend = "confirmed" then some HumanAgentStatus.connected
  else if frontend = "connected" then some HumanAgentStatus.connected
  else if frontend = "no-answer" then some HumanAgentStatus.unavailable
  else if frontend = "busy" then some HumanAgentStatus.unavailable
  else if frontend = "failed" then some HumanAgentStatus.unavailable
  else if frontend = "returned_to_ai" then some HumanAgentStatus.unavailable
  else none

/-- Embedding of return_to_ai_conversation (twilio_voice.py lines 306-353),
assuming the call is registered and the Twilio client is configured: reset
the escalation fields, record the return reason, and redirect the caller
back to the media-stream TwiML. -/
def returnToAi (call : ActiveCall) (reason : String) : ActiveCall × List ExtAction :=
  ({ call with
       state := CallState.aiConversation,
       conferenceName := none,
       humanCallSid := none,
       escalationReturnReason := some reason },
   [ExtAction.redirect
      ("/api/voice/return-to-ai?session_id=" ++ call.sessionId ++ "&reason=" ++ reason)])

/-- Embedding of update_human_call_status (twilio_voice.py lines 730-845)
for a registered call: returns the updated call, the updated stored session
state (written by the unconditional set_state at lines 819-837: the
handler computes frontend_status and escalation_in_progress, the latter
defaulting to True, and stores human_agent_status via status_mapping.get),
and the external redirects issued. Dashboard notifications and logging are
not modelled. -/
def updateHumanCallStatus (call : ActiveCall) (status : String)
    (sess : Option SessState) : ActiveCall × Option SessState × List ExtAction :=
  let step : ActiveCall × String × Bool × List ExtAction :=
    if status = "initiated" then
      ({ call with humanCallStatus := HumanCallStatus.calling }, ("calling", true, []))
    else if status = "ringing" then
      ({ call with humanCallStatus := HumanCallStatus.ringing }, ("ringing", true, []))
    else if status = "in-progress" then
      ({ call with humanCallStatus := HumanCallStatus.waitingConfirmation },
       ("waiting_confirmation", true, []))
    else if status = "busy" ∨ status = "no-answer" ∨ status = "failed" ∨ status = "canceled" then
      let frontend :=
        if status = "busy" ∨ status = "no-answer" ∨ status = "canceled" then status
        else "failed"
      let c1 := { call with
                    humanCallStatus := HumanCallStatus.failed,
                    escalationReason := none,
                    humanCallSid := none,
                    conferenceName := none }
      let c2 := queueEvent c1 ("escalation_failed")
                  ("[ESCALATION_RETURNED:" ++ frontend ++ "]")
      (c2, (frontend, false, []))
    else if status = "completed" then
      if call.humanCallStatus = HumanCallStatus.inConference then
        let c1 := { call with humanCallStatus := HumanCallStatus.completed }
        let r := returnToAi c1 ("human_ended")
        (r.1, ("returned_to_ai", false, r.2))
      else if call.humanCallStatus = HumanCallStatus.confirmed then
        let c1 := { call with
                      humanCallStatus := HumanCallStatus.failed,
                      escalationReason := none }
        let c2 := queueEvent c1 ("escalation_failed") ("[ESCALATION_RETURNED:failed]")
        (c2, ("failed", false, []))
      else if call.humanCallStatus = HumanCallStatus.waitingConfirmation then
        let c1 := { call with
                      humanCallStatus := HumanCallStatus.failed,
                      escalationReason := none }
        let c2 := queueEvent c1 ("escalation_failed") ("[ESCALATION_RETURNED:no-answer]")
        (c2, ("no-answer", false, []))
      else (call, ("completed", true, []))
    else (call, (status, true, []))
  let sess2 := sess.map fun s =>
    { s with
        humanAgentStatus := statusMapping step.2.1,
        escalationInProgress := step.2.2.1 }
  (step.1, sess2, step.2.2.2)

/-- Fold a sequence of call-status callbacks through
update_human_call_status, discarding the redirect actions. -/
def runStatusSeq (call : ActiveCall) (sess : Option SessState) :
    List String → ActiveCall × Option SessState
  | [] => (call, sess)
  | s :: rest =>
    let r := updateHumanCallStatus call s sess
    runStatusSeq r.1 r.2.1 rest

/-- Embedding of handle_human_declined (twilio_voice.py lines 847-889) for
a registered call: mark the human call failed, clear the escalation
fields, write the stored session state (human unavailable, escalation no
longer in progress) and queue the decline notification event. -/
def handleHumanDeclined (call : ActiveCall) (sess : Option SessState) :
    ActiveCall × Option SessState :=
  let c1 := { call with
                humanCallStatus := HumanCallStatus.failed,
                escalationReason := none,
                humanCallSid := none,
                conferenceName := none }
  let sess2 := sess.map fun s =>
    { s with
        humanAgentStatus := some HumanAgentStatus.unavailable,
        escalationInProgress := false }
  (queueEvent c1 ("escalation_failed") ("[ESCALATION_RETURNED:declined]"), sess2)

/-- Embedding of handle_human_confirmed (twilio_voice.py lines 891-935) for
a registered call. When the current status is not WAITING_CONFIRMATION the
source only logs a warning and proceeds identically. The returned Nat is
the number of delayed_transfer tasks scheduled by this invocation (the
source creates exactly one asyncio task per invocation, which sleeps for
the fixed 2s delay and then calls transfer_customer_to_conference). -/
def handleHumanConfirmed (call : ActiveCall) (sess : Option SessState) :
    ActiveCall × Option SessState × Nat :=
  let c1 := { call with humanCallStatus := HumanCallStatus.confirmed }
  let sess2 := sess.map fun s =>
    { s with
        humanAgentStatus := some HumanAgentStatus.connected,
        escalationInProgress := true }
  (c1, sess2, 1)

/-- Embedding of transfer_customer_to_conference (twilio_voice.py lines
937-978). clientOk models whether the Twilio client is configured (the
call-registered check is implicit in receiving the call record). Returns
the updated call, the boolean result, and the redirects issued; the
exception branch of the REST call is not modelled. -/
def transferCustomerToConference (call : ActiveCall) (clientOk : Bool) :
    ActiveCall × Bool × List ExtAction :=
  if clientOk = false then (call, false, [])
  else if call.humanCallStatus ≠ HumanCallStatus.confirmed then (call, false, [])
  else
    match call.conferenceName with
    | none => (call, false, [])
    | some conf =>
      ({ call with
           state := CallState.escalating,
           humanCallStatus := HumanCallStatus.inConference },
       true,
       [ExtAction.redirect
          ("/api/voice/escalate?session_id=" ++ call.sessionId ++ "&conference=" ++ conf)])

/-! ## Call registry and stream-stop cleanup (twilio_voice.py,
voice_routes.py) -/

/-- The three registry indices of TwilioVoiceService (twilio_voice.py lines
106-108): call_sid to ActiveCall, stream_sid to call_sid, session_id to
call_sid. -/
structure Registry where
  activeCalls : List (String × ActiveCall)
  streamToCall : List (String × String)
  sessionToCall : List (String × String)
  deriving DecidableEq, Repr

/-- Embedding of TwilioVoiceService.cleanup_call (twilio_voice.py lines
173-180): pop the call-sid entry and, when it existed, the stream-sid and
session-id entries with it. -/
def cleanupCall (reg : Registry) (callSid : String) : Registry :=
  match alookup reg.activeCalls callSid with
  | none => reg
  | some call =>
    { activeCalls := aremove reg.activeCalls callSid,
      streamToCall :=
        match call.streamSid with
        | some s => aremove reg.streamToCall s
        | none => reg.streamToCall,
      sessionToCall := aremove reg.sessionToCall call.sessionId }

/-- Embedding of the media_stream_websocket handling of a stream "stopped"
event (voice_routes.py lines 650-664 and the finally block at lines
694-708): first the stop branch marks the call ENDED unless it is
escalating or in conference, then the finally block keeps an escalating or
in-conference call registered and fully deregisters any other call. -/
def streamStop (reg : Registry) (callSid : String) : Registry :=
  let reg1 :=
    match alookup reg.activeCalls callSid with
    | some call =>
      if call.state ≠ CallState.escalating ∧ call.state ≠ CallState.inConference then
        { reg with
            activeCalls := aset reg.activeCalls callSid { call with state := CallState.ended } }
      else reg
    | none => reg
  match alookup reg1.activeCalls callSid with
  | some call =>
    if call.state = CallState.escalating ∨ call.state = CallState.inConference then reg1
    else cleanupCall reg1 callSid
  | none => cleanupCall reg1 callSid

/-! ## Bounded and unbounded conflict retries (conversation.py,
state_store.py) -/

/-- The optimistic-locking retry loop of
ConversationService.process_message (conversation.py lines 47-89).
casResult i is the outcome of the set_state_if_version attempt made with
retries = i (each attempt re-reads the state and re-applies the turn).
Returns the number of compare-and-set attempts made and whether the loop
fell back to the unconditional force save (state_store.set_state). The
fuel argument equals the remaining loop iterations permitted by the
while-condition retries < MAX_RETRIES. -/
def saveWithRetry (casResult : Nat → Bool) : Nat → Nat → Nat × Bool
  | retries, 0 => (retries, false)
  | retries, fuel + 1 =>
    if casResult retries then (retries + 1, false)
    else if MAX_RETRIES ≤ retries + 1 then (retries + 1, true)
    else saveWithRetry casResult (retries + 1) fuel

def processMessageSave (casResult : Nat → Bool) : Nat × Bool :=
  saveWithRetry casResult 0 MAX_RETRIES

/-- The retry recursion of StateStore.sync_atomic_updates_to_state
(state_store.py lines 425-473) in an execution where side-channel data is
pending at every re-read (modified = True): each list entry is the outcome
of the set_state_if_version at line 466 of one attempt; on a conflict the
function re-invokes itself unconditionally (line 471). Returns the number
of re-read/re-apply attempts made until the merge resolved, or none when
the given outcomes are exhausted without a success. -/
def syncAttempts : List Bool → Option Nat
  | [] => none
  | ok :: rest =>
    if ok then some 1
    else
      match syncAttempts rest with
      | some n => some (n + 1)
      | none => none

/-! ## Concrete records used by witnesses and counterexamples -/

/-- A freshly registered call (register_call, twilio_voice.py lines
138-148) whose stream has started (register_stream, lines 150-157). -/
def freshCall : ActiveCall :=
  { callSid := "CA1",
    sessionId := "s1",
    streamSid := some "MZ1",
    state := CallState.aiConversation }

/-- A call whose escalation has begun: _start_human_call_background
(twilio_voice.py lines 980-1033) set the conference name, the CALLING
status and the human call sid. -/
def escalatingCall : ActiveCall :=
  { freshCall with
      conferenceName := some "support_s1",
      humanCallSid := some "CA2",
      humanCallStatus := HumanCallStatus.calling,
      escalationReason := some "assistance" }

/-! ## Theorems -/

theorem alookup_aset_self {α : Type} (l : List (String × α)) (k : String) (v : α) :
    alookup (aset l k v) k = some v := by
  induction l with
  | nil => simp [aset, alookup]
  | cons hd tl ih =>
    by_cases h : hd.1 = k
    · simp [aset, alookup, h]
    · simp [aset, alookup, h, ih]

theorem alookup_aremove_self {α : Type} (l : List (String × α)) (k : String) :
    alookup (aremove l k) k = none := by
  induction l with
  | nil => simp [aremove, alookup]
  | cons hd tl ih =>
    by_cases h : hd.1 = k
    · simp [aremove, h, ih]
    · simp [aremove, alookup, h, ih]

/-- C1: for every session holding a stored record, a compare-and-set write
by a writer that read stored version V succeeds exactly when the stored
version still equals V; on a conflict the write returns False and the
store is left unmodified; on success the record is persisted with version
exactly V + 1. -/
theorem setStateIfVersion_cas (store : Store) (sid : String) (st : SRecord)
    (V : Nat) (cur : SRecord) (hcur : alookup store sid = some cur) :
    ((setStateIfVersion store sid st V).2 = true ↔ cur.version = V)
    ∧ (cur.version ≠ V → setStateIfVersion store sid st V = (store, false))
    ∧ (cur.version = V →
        (setStateIfVersion store sid st V).2 = true
        ∧ alookup (setStateIfVersion store sid st V).1 sid
            = some { st with version := V + 1 }) := by
  by_cases h : cur.version = V
  · simp [setStateIfVersion, hcur, h, alookup_aset_self]
  · simp [setStateIfVersion, hcur, h]

/-- C1 witness: with stored version 2, a write expecting version 2 succeeds
and persists version 3, and a write expecting the stale version 1 is
rejected leaving the store unmodified. -/
theorem setStateIfVersion_cas_witness :
    alookup ([(("s1"), SRecord.mk 2 ("a"))] : Store) ("s1") = some (SRecord.mk 2 ("a"))
    ∧ ((setStateIfVersion ([(("s1"), SRecord.mk 2 ("a"))] : Store) ("s1") (SRecord.mk 0 ("b")) 2).2 = true
        ↔ (SRecord.mk 2 ("a")).version = 2)
    ∧ ((SRecord.mk 2 ("a")).version ≠ 1 →
        setStateIfVersion ([(("s1"), SRecord.mk 2 ("a"))] : Store) ("s1") (SRecord.mk 0 ("b")) 1
          = (([(("s1"), SRecord.mk 2 ("a"))] : Store), false)) :=
  ⟨by decide,
   (setStateIfVersion_cas ([(("s1"), SRecord.mk 2 ("a"))] : Store) ("s1")
      (SRecord.mk 0 ("b")) 2 (SRecord.mk 2 ("a")) (by decide)).1,
   (setStateIfVersion_cas ([(("s1"), SRecord.mk 2 ("a"))] : Store) ("s1")
      (SRecord.mk 0 ("b")) 1 (SRecord.mk 2 ("a")) (by decide)).2.1⟩

/-- C9: for a session with no stored record, set_state_if_version skips the
version check, succeeds for every expected_version, and persists the
record with version expected_version + 1. -/
theorem setStateIfVersion_missing_record (store : Store) (sid : String)
    (st : SRecord) (V : Nat) (hnone : alookup store sid = none) :
    (setStateIfVersion store sid st V).2 = true
    ∧ alookup (setStateIfVersion store sid st V).1 sid
        = some { st with version := V + 1 } := by
  simp [setStateIfVersion, hnone, alookup_aset_self]

/-- C9 witness: against an empty store, a write expecting version 7
succeeds and persists version 8. -/
theorem setStateIfVersion_missing_record_witness :
    alookup ([] : Store) ("s9") = none
    ∧ ((setStateIfVersion ([] : Store) ("s9") (SRecord.mk 0 ("c")) 7).2 = true
       ∧ alookup (setStateIfVersion ([] : Store) ("s9") (SRecord.mk 0 ("c")) 7).1 ("s9")
           = some (SRecord.mk 8 ("c"))) :=
  ⟨by decide,
   setStateIfVersion_missing_record ([] : Store) ("s9") (SRecord.mk 0 ("c")) 7 (by decide)⟩

/-- C2 (code evaluated at the failing input): MIN_SPEECH_FRAMES = 5 is
declared to confirm speech but process_audio_chunk never consults it: a
single supra-threshold frame (energy 501 > SILENCE_THRESHOLD = 500) on a
fresh non-speaking call already sets is_speaking, so speech start is
signaled on the first frame instead of after 5 consecutive frames. -/
theorem speech_start_first_frame :
    MIN_SPEECH_FRAMES = 5
    ∧ freshCall.speaking = false
    ∧ (processAudioChunk freshCall 501).1.speaking = true
    ∧ (runVad freshCall [501]).1.speaking = true := by
  refine ⟨rfl, rfl, rfl, rfl⟩

theorem runVad_cons (call : ActiveCall) (e : Nat) (rest : List Nat) :
    runVad call (e :: rest)
      = ((runVad (processAudioChunk call e).1 rest).1,
         (processAudioChunk call e).2.toList
           ++ (runVad (processAudioChunk call e).1 rest).2) := rfl

theorem runVad_speech (call : ActiveCall) (es : List Nat)
    (hspk : call.speaking = true) (hsil : call.silenceFrames = 0)
    (hes : ∀ e ∈ es, SILENCE_THRESHOLD < e) :
    runVad call es = ({ call with buffer := call.buffer ++ es }, []) := by
  induction es generalizing call with
  | nil => simp [runVad]
  | cons e rest ih =>
    obtain ⟨sid1, sid2, str, st, cn, hc, bf, sf, spk, hcs, er, err, pe, pl, bi⟩ := call
    simp only at hspk hsil
    subst hspk hsil
    have he : SILENCE_THRESHOLD < e := hes e (by simp)
    simp only [runVad, processAudioChunk, he, if_true, if_pos]
    rw [ih _ rfl rfl (fun x hx => hes x (by simp [hx]))]
    simp

theorem runVad_silence (call : ActiveCall) (zs : List Nat)
    (hspk : call.speaking = true)
    (hz : ∀ z ∈ zs, ¬ SILENCE_THRESHOLD < z)
    (hlen : call.silenceFrames + zs.length < MIN_SILENCE_FRAMES) :
    runVad call zs
      = ({ call with
             silenceFrames := call.silenceFrames + zs.length,
             buffer := call.buffer ++ zs }, []) := by
  induction zs generalizing call with
  | nil => simp [runVad]
  | cons z rest ih =>
    obtain ⟨sid1, sid2, str, st, cn, hc, bf, sf, spk, hcs, er, err, pe, pl, bi⟩ := call
    simp only at hspk hlen
    subst hspk
    have hz0 : ¬ SILENCE_THRESHOLD < z := hz z (by simp)
    have hnotend : ¬ MIN_SILENCE_FRAMES ≤ sf + 1 := by
      simp only [List.length_cons] at hlen
      omega
    simp only [runVad, processAudioChunk, hz0, if_neg, if_true, if_pos, hnotend, if_false]
    rw [ih _ rfl (fun x hx => hz x (by simp [hx])) (by simp at hlen ⊢; omega)]
    simp [List.append_assoc]
    omega

theorem runVad_silence_end (call : ActiveCall) (zs : List Nat)
    (hspk : call.speaking = true)
    (hz : ∀ z ∈ zs, ¬ SILENCE_THRESHOLD < z)
    (hne : zs ≠ [])
    (hlen : call.silenceFrames + zs.length = MIN_SILENCE_FRAMES) :
    runVad call zs
      = ({ call with speaking := false, buffer := [], silenceFrames := 0 },
         [call.buffer ++ zs]) := by
  induction zs generalizing call with
  | nil => exact absurd rfl hne
  | cons z rest ih =>
    obtain ⟨sid1, sid2, str, st, cn, hc, bf, sf, spk, hcs, er, err, pe, pl, bi⟩ := call
    simp only at hspk hlen
    subst hspk
    have hz0 : ¬ SILENCE_THRESHOLD < z := hz z (by simp)
    cases rest with
    | nil =>
      have hsf : MIN_SILENCE_FRAMES ≤ sf + 1 := by
        simp only [List.length_cons, List.length_nil] at hlen
        omega
      simp [runVad, processAudioChunk, hz0, hsf]
    | cons z2 rest2 =>
      have hnotend : ¬ MIN_SILENCE_FRAMES ≤ sf + 1 := by
        simp only [List.length_cons] at hlen
        omega
      have hstep : processAudioChunk
            (ActiveCall.mk sid1 sid2 str st cn hc bf sf true hcs er err pe pl bi) z
          = (ActiveCall.mk sid1 sid2 str st cn hc (bf ++ [z]) (sf + 1) true hcs er err pe pl bi,
             none) := by
        simp [processAudioChunk, hz0, hnotend]
      rw [runVad_cons, hstep]
      rw [ih (ActiveCall.mk sid1 sid2 str st cn hc (bf ++ [z]) (sf + 1) true hcs er err pe pl bi)
            rfl (fun x hx => hz x (by simp [hx])) (by simp)
            (by show sf + 1 + (z2 :: rest2).length = MIN_SILENCE_FRAMES
                simp only [List.length_cons] at hlen ⊢
                omega)]
      simp [List.append_assoc]

theorem runVad_append (call : ActiveCall) (xs ys : List Nat) :
    runVad call (xs ++ ys)
      = ((runVad (runVad call xs).1 ys).1,
         (runVad call xs).2 ++ (runVad (runVad call xs).1 ys).2) := by
  induction xs generalizing call with
  | nil => simp [runVad]
  | cons x rest ih =>
    rw [List.cons_append, runVad_cons, runVad_cons, ih]
    simp [List.append_assoc]

/-- C3: after speech has started, a run of exactly MIN_SILENCE_FRAMES = 30
consecutive sub-threshold frames ends the utterance exactly once; the
segment handed to transcription is the concatenation of all speech frames
and the trailing silence frames (its length is the speech-frame count plus
MIN_SILENCE_FRAMES), and the audio buffer, the silence counter and the
speaking flag are reset afterwards. -/
theorem vad_utterance_end (call : ActiveCall) (es zs : List Nat)
    (hspk : call.speaking = false) (hbuf : call.buffer = [])
    (hsil : call.silenceFrames = 0) (hplay : call.playing = false)
    (hes : es ≠ []) (hse : ∀ e ∈ es, SILENCE_THRESHOLD < e)
    (hzs : ∀ z ∈ zs, ¬ SILENCE_THRESHOLD < z)
    (hlen : zs.length = MIN_SILENCE_FRAMES) :
    runVad call (es ++ zs) = (call, [es ++ zs])
    ∧ (es ++ zs).length = es.length + MIN_SILENCE_FRAMES := by
  constructor
  · obtain ⟨sid1, sid2, str, st, cn, hc, bf, sf, spk, hcs, er, err, pe, pl, bi⟩ := call
    simp only at hspk hbuf hsil hplay
    subst hspk hbuf hsil hplay
    cases es with
    | nil => exact absurd rfl hes
    | cons e es2 =>
      have he : SILENCE_THRESHOLD < e := hse e (by simp)
      have hz30 : zs ≠ [] := by
        intro h
        rw [h] at hlen
        simp [MIN_SILENCE_FRAMES] at hlen
      have hstep : processAudioChunk
            (ActiveCall.mk sid1 sid2 str st cn hc [] 0 false hcs er err pe false bi) e
          = (ActiveCall.mk sid1 sid2 str st cn hc [e] 0 true hcs er err pe false bi, none) := by
        simp [processAudioChunk, he]
      have hsp : runVad
            (ActiveCall.mk sid1 sid2 str st cn hc [e] 0 true hcs er err pe false bi) es2
          = (ActiveCall.mk sid1 sid2 str st cn hc ([e] ++ es2) 0 true hcs er err pe false bi,
             []) := by
        exact runVad_speech _ es2 rfl rfl (fun x hx => hse x (by simp [hx]))
      have hend : runVad
            (ActiveCall.mk sid1 sid2 str st cn hc ([e] ++ es2) 0 true hcs er err pe false bi) zs
          = (ActiveCall.mk sid1 sid2 str st cn hc [] 0 false hcs er err pe false bi,
             [([e] ++ es2) ++ zs]) := by
        exact runVad_silence_end _ zs rfl hzs hz30 (by simpa using hlen)
      rw [List.cons_append, runVad_cons, hstep]
      simp only [Option.toList_none, List.nil_append]
      rw [runVad_append, hsp]
      simp only [List.nil_append]
      rw [hend]
      simp
  · simp [hlen]

/-- C3 witness: five speech frames of energy 800 followed by exactly 30
frames of energy 0 yield exactly one utterance of 35 frames and reset the
segmenter. -/
theorem vad_utterance_end_witness :
    (freshCall.speaking = false ∧ List.replicate 5 800 ≠ ([] : List Nat))
    ∧ (runVad freshCall (List.replicate 5 800 ++ List.replicate 30 0)
        = (freshCall, [List.replicate 5 800 ++ List.replicate 30 0])
       ∧ (List.replicate 5 800 ++ List.replicate 30 0).length
           = (List.replicate 5 800).length + MIN_SILENCE_FRAMES) :=
  ⟨⟨rfl, by decide⟩,
   vad_utterance_end freshCall (List.replicate 5 800) (List.replicate 30 0)
     rfl rfl rfl rfl (by decide) (by decide) (by decide) (by decide)⟩

theorem sendChunks_stop (flagAt : Nat → Bool) :
    ∀ (k i rem : Nat), k < rem →
      (∀ j, j < k → flagAt (i + j) = false) → flagAt (i + k) = true →
      sendChunks flagAt i rem
        = (List.range k).map (fun j => StreamMsg.media (i + j)) ++ [StreamMsg.clear] := by
  intro k
  induction k with
  | zero =>
    intro i rem hk hbef hflag
    cases rem with
    | zero => omega
    | succ r =>
      have : flagAt i = true := by simpa using hflag
      simp [sendChunks, this]
  | succ k ih =>
    intro i rem hk hbef hflag
    cases rem with
    | zero => omega
    | succ r =>
      have h0 : flagAt i = false := by simpa using hbef 0 (by omega)
      have hrest := ih (i + 1) r (by omega)
        (fun j hj => by
          have := hbef (j + 1) (by omega)
          simpa [Nat.add_assoc, Nat.add_comm 1 j] using this)
        (by simpa [Nat.add_assoc, Nat.add_comm 1 k] using hflag)
      rw [sendChunks, h0]
      simp only [Bool.false_eq_true, if_false, hrest]
      rw [List.range_succ_eq_map]
      simp [List.map_map, Function.comp, Nat.add_assoc, Nat.add_comm 1]

/-- C4: while is_playing_audio is true, a detected speech start sets
barge_in_requested; the outbound sender observes the flag at each
fixed-size chunk boundary, sends exactly the chunks preceding the first
boundary where the flag is observed set followed by the provider clear
control frame and no later media chunk, and clears the flag when playback
fully stops (set_playing_audio False). -/
theorem barge_in_protocol (call : ActiveCall) (e : Nat) (flagAt : Nat → Bool)
    (n k : Nat)
    (hplay : call.playing = true) (hspk : call.speaking = false)
    (he : SILENCE_THRESHOLD < e)
    (hbef : ∀ j, j < k → flagAt j = false) (hk : flagAt k = true) (hkn : k < n) :
    (processAudioChunk call e).1.bargeIn = true
    ∧ (sendAudioStream call flagAt n).2
        = (List.range k).map StreamMsg.media ++ [StreamMsg.clear]
    ∧ (sendAudioStream call flagAt n).1.playing = false
    ∧ (sendAudioStream call flagAt n).1.bargeIn = false := by
  refine ⟨?_, ?_, ?_, ?_⟩
  · simp [processAudioChunk, he, hspk, hplay]
  · have := sendChunks_stop flagAt k 0 n hkn (fun j hj => by simpa using hbef j hj)
      (by simpa using hk)
    simpa [sendAudioStream] using this
  · simp [sendAudioStream, setPlaying]
  · simp [sendAudioStream, setPlaying]

/-- C4 witness: a playing, non-speaking call, a speech frame of energy 600,
and a flag first observed set at the boundary before chunk 2 of a 4-chunk
playback: chunks 0 and 1 are sent, then the clear frame. -/
theorem barge_in_protocol_witness :
    (({ freshCall with playing := true } : ActiveCall).playing = true
     ∧ (fun i => decide (2 ≤ i)) 2 = true ∧ (2 : Nat) < 4)
    ∧ ((processAudioChunk { freshCall with playing := true } 600).1.bargeIn = true
       ∧ (sendAudioStream { freshCall with playing := true } (fun i => decide (2 ≤ i)) 4).2
           = (List.range 2).map StreamMsg.media ++ [StreamMsg.clear]
       ∧ (sendAudioStream { freshCall with playing := true } (fun i => decide (2 ≤ i)) 4).1.playing = false
       ∧ (sendAudioStream { freshCall with playing := true } (fun i => decide (2 ≤ i)) 4).1.bargeIn = false) :=
  ⟨⟨rfl, by decide, by decide⟩,
   barge_in_protocol { freshCall with playing := true } 600 (fun i => decide (2 ≤ i)) 4 2
     rfl rfl (by decide) (by decide) (by decide) (by decide)⟩

theorem queueEvent_humanCallStatus (c : ActiveCall) (t m : String) :
    (queueEvent c t m).humanCallStatus = c.humanCallStatus := by
  simp only [queueEvent]
  split <;> rfl

theorem queueEvent_pendingEvents (c : ActiveCall) (t m : String) :
    (queueEvent c t m).pendingEvents = c.pendingEvents ++ [CallEvent.mk t m] := by
  simp only [queueEvent]
  split <;> rfl

/-- C5 counterexample: a call-status completed received before confirmation
while the human call is still RINGING (the in-progress callback was never
delivered) is a terminal non-success outcome, yet update_human_call_status
leaves HumanCallStatus at RINGING, writes the session with
escalation_in_progress still true, and queues no notification event. -/
theorem completed_while_ringing_unresolved :
    (updateHumanCallStatus { escalatingCall with humanCallStatus := HumanCallStatus.ringing }
       ("completed") (some (SessState.mk (some HumanAgentStatus.ringing) true))).1.humanCallStatus
      = HumanCallStatus.ringing
    ∧ (updateHumanCallStatus { escalatingCall with humanCallStatus := HumanCallStatus.ringing }
         ("completed") (some (SessState.mk (some HumanAgentStatus.ringing) true))).2.1
        = some (SessState.mk none true)
    ∧ (updateHumanCallStatus { escalatingCall with humanCallStatus := HumanCallStatus.ringing }
         ("completed") (some (SessState.mk (some HumanAgentStatus.ringing) true))).1.pendingEvents
        = [] := by
  refine ⟨rfl, rfl, rfl⟩

/-- C5 (amended): every terminal non-success human-call outcome — call
status busy, no-answer, failed or canceled; completed received while in
WAITING_CONFIRMATION (connected but no digit ever pressed); or a decline
keypress — sets HumanCallStatus to FAILED, writes the session with
escalation_in_progress false, and queues an escalation_failed event
carrying the reason code; in particular the sequence initiated, ringing,
in-progress, completed with no digit pressed resolves to FAILED with
reason no-answer. (The original claim also covered completed received in
the earlier CALLING/RINGING stages, which the code leaves unresolved.) -/
theorem escalation_failures_reset (call : ActiveCall) (sess : SessState) (status : String)
    (hterm : status = "busy" ∨ status = "no-answer" ∨ status = "failed" ∨ status = "canceled") :
    ((updateHumanCallStatus call status (some sess)).1.humanCallStatus = HumanCallStatus.failed
     ∧ (updateHumanCallStatus call status (some sess)).2.1
         = some { sess with humanAgentStatus := statusMapping status, escalationInProgress := false }
     ∧ (updateHumanCallStatus call status (some sess)).1.pendingEvents
         = call.pendingEvents
             ++ [CallEvent.mk ("escalation_failed") ("[ESCALATION_RETURNED:" ++ status ++ "]")])
    ∧ (call.humanCallStatus = HumanCallStatus.waitingConfirmation →
        (updateHumanCallStatus call ("completed") (some sess)).1.humanCallStatus
           = HumanCallStatus.failed
        ∧ (updateHumanCallStatus call ("completed") (some sess)).2.1
            = some { sess with humanAgentStatus := some HumanAgentStatus.unavailable,
                               escalationInProgress := false }
        ∧ (updateHumanCallStatus call ("completed") (some sess)).1.pendingEvents
            = call.pendingEvents
                ++ [CallEvent.mk ("escalation_failed") ("[ESCALATION_RETURNED:no-answer]")])
    ∧ ((handleHumanDeclined call (some sess)).1.humanCallStatus = HumanCallStatus.failed
       ∧ (handleHumanDeclined call (some sess)).2
           = some { sess with humanAgentStatus := some HumanAgentStatus.unavailable,
                              escalationInProgress := false }
       ∧ (handleHumanDeclined call (some sess)).1.pendingEvents
           = call.pendingEvents
               ++ [CallEvent.mk ("escalation_failed") ("[ESCALATION_RETURNED:declined]")])
    ∧ ((runStatusSeq call (some sess)
          [("initiated"), ("ringing"), ("in-progress"), ("completed")]).1.humanCallStatus
         = HumanCallStatus.failed
       ∧ (runStatusSeq call (some sess)
            [("initiated"), ("ringing"), ("in-progress"), ("completed")]).2
           = some { sess with humanAgentStatus := some HumanAgentStatus.unavailable,
                              escalationInProgress := false }
       ∧ (runStatusSeq call (some sess)
            [("initiated"), ("ringing"), ("in-progress"), ("completed")]).1.pendingEvents
           = call.pendingEvents
               ++ [CallEvent.mk ("escalation_failed") ("[ESCALATION_RETURNED:no-answer]")]) := by
  refine ⟨?_, ?_, ?_, ?_⟩
  · rcases hterm with h | h | h | h <;> subst h <;>
      simp [updateHumanCallStatus, queueEvent_humanCallStatus, queueEvent_pendingEvents,
            statusMapping]
  · intro h
    refine ⟨?_, ?_, ?_⟩ <;>
      simp [updateHumanCallStatus, h, queueEvent_humanCallStatus, queueEvent_pendingEvents,
            statusMapping]
  · refine ⟨?_, ?_, ?_⟩ <;>
      simp [handleHumanDeclined, queueEvent_humanCallStatus, queueEvent_pendingEvents]
  · refine ⟨?_, ?_, ?_⟩ <;>
      simp [runStatusSeq, updateHumanCallStatus, queueEvent_humanCallStatus,
            queueEvent_pendingEvents, statusMapping]

/-- C5 witness: a no-answer callback on a live escalation resolves it to
FAILED with escalation_in_progress false and the no-answer reason queued,
and so does the initiated-ringing-in-progress-completed sequence. -/
theorem escalation_failures_reset_witness :
    (("no-answer" : String) = "busy" ∨ ("no-answer" : String) = "no-answer"
      ∨ ("no-answer" : String) = "failed" ∨ ("no-answer" : String) = "canceled")
    ∧ ((updateHumanCallStatus escalatingCall ("no-answer")
          (some (SessState.mk (some HumanAgentStatus.ringing) true))).1.humanCallStatus
         = HumanCallStatus.failed
       ∧ (updateHumanCallStatus escalatingCall ("no-answer")
            (some (SessState.mk (some HumanAgentStatus.ringing) true))).2.1
           = some { SessState.mk (some HumanAgentStatus.ringing) true with
                      humanAgentStatus := statusMapping ("no-answer"),
                      escalationInProgress := false }
       ∧ (updateHumanCallStatus escalatingCall ("no-answer")
            (some (SessState.mk (some HumanAgentStatus.ringing) true))).1.pendingEvents
           = escalatingCall.pendingEvents
               ++ [CallEvent.mk ("escalation_failed")
                     ("[ESCALATION_RETURNED:" ++ "no-answer" ++ "]")])
    ∧ ((runStatusSeq escalatingCall (some (SessState.mk (some HumanAgentStatus.ringing) true))
          [("initiated"), ("ringing"), ("in-progress"), ("completed")]).1.humanCallStatus
         = HumanCallStatus.failed
       ∧ (runStatusSeq escalatingCall (some (SessState.mk (some HumanAgentStatus.ringing) true))
            [("initiated"), ("ringing"), ("in-progress"), ("completed")]).2
           = some { SessState.mk (some HumanAgentStatus.ringing) true with
                      humanAgentStatus := some HumanAgentStatus.unavailable,
                      escalationInProgress := false }
       ∧ (runStatusSeq escalatingCall (some (SessState.mk (some HumanAgentStatus.ringing) true))
            [("initiated"), ("ringing"), ("in-progress"), ("completed")]).1.pendingEvents
           = escalatingCall.pendingEvents
               ++ [CallEvent.mk ("escalation_failed") ("[ESCALATION_RETURNED:no-answer]")]) :=
  ⟨by decide,
   (escalation_failures_reset escalatingCall (SessState.mk (some HumanAgentStatus.ringing) true)
      ("no-answer") (by decide)).1,
   (escalation_failures_reset escalatingCall (SessState.mk (some HumanAgentStatus.ringing) true)
      ("no-answer") (by decide)).2.2.2⟩

/-- C6: a keypress 1 marks the human call CONFIRMED and schedules exactly
one delayed conference transfer per confirmation; the transfer redirects
the caller into the conference, marking the call ESCALATING and the human
status IN_CONFERENCE, exactly when HumanCallStatus is CONFIRMED and a
conference name is set, and otherwise returns False without issuing any
redirect. -/
theorem confirm_then_single_transfer (call : ActiveCall) (sess : SessState) (conf : String)
    (hconf : call.conferenceName = some conf) :
    (handleHumanConfirmed call (some sess)).1.humanCallStatus = HumanCallStatus.confirmed
    ∧ (handleHumanConfirmed call (some sess)).2.2 = 1
    ∧ transferCustomerToConference (handleHumanConfirmed call (some sess)).1 true
        = ({ call with
               humanCallStatus := HumanCallStatus.inConference,
               state := CallState.escalating },
           true,
           [ExtAction.redirect
              ("/api/voice/escalate?session_id=" ++ call.sessionId ++ "&conference=" ++ conf)])
    ∧ (∀ c2 ok, c2.humanCallStatus ≠ HumanCallStatus.confirmed →
         transferCustomerToConference c2 ok = (c2, false, []))
    ∧ (∀ c2 ok, c2.conferenceName = none →
         transferCustomerToConference c2 ok = (c2, false, [])) := by
  refine ⟨rfl, rfl, ?_, ?_, ?_⟩
  · simp [handleHumanConfirmed, transferCustomerToConference, hconf]
  · intro c2 ok h
    cases ok <;> simp [transferCustomerToConference, h]
  · intro c2 ok h
    cases ok <;> simp [transferCustomerToConference, h]

/-- C6 witness: a waiting escalation with conference support_s1 confirms,
schedules one transfer, and that transfer redirects into the conference. -/
theorem confirm_then_single_transfer_witness :
    ({ escalatingCall with
         humanCallStatus := HumanCallStatus.waitingConfirmation } : ActiveCall).conferenceName
      = some ("support_s1")
    ∧ ((handleHumanConfirmed
          { escalatingCall with humanCallStatus := HumanCallStatus.waitingConfirmation }
          (some (SessState.mk (some HumanAgentStatus.waiting) true))).1.humanCallStatus
         = HumanCallStatus.confirmed
       ∧ (handleHumanConfirmed
            { escalatingCall with humanCallStatus := HumanCallStatus.waitingConfirmation }
            (some (SessState.mk (some HumanAgentStatus.waiting) true))).2.2 = 1) :=
  ⟨by decide,
   (confirm_then_single_transfer
      { escalatingCall with humanCallStatus := HumanCallStatus.waitingConfirmation }
      (SessState.mk (some HumanAgentStatus.waiting) true) ("support_s1") (by decide)).1,
   (confirm_then_single_transfer
      { escalatingCall with humanCallStatus := HumanCallStatus.waitingConfirmation }
      (SessState.mk (some HumanAgentStatus.waiting) true) ("support_s1") (by decide)).2.1⟩

/-- C10: handle_human_confirmed accepts a keypress 1 from any current
HumanCallStatus: whatever the prior status, it sets CONFIRMED, writes the
session as connected with escalation in progress, and schedules the
delayed conference transfer; hence a duplicate or late keypress on a call
that still has its conference name set triggers a further transfer. -/
theorem confirm_from_any_status (call : ActiveCall) (sess : SessState) :
    (handleHumanConfirmed call (some sess)).1.humanCallStatus = HumanCallStatus.confirmed
    ∧ (handleHumanConfirmed call (some sess)).2.2 = 1
    ∧ (handleHumanConfirmed call (some sess)).2.1
        = some { sess with
                   humanAgentStatus := some HumanAgentStatus.connected,
                   escalationInProgress := true }
    ∧ (∀ conf, call.conferenceName = some conf →
        (transferCustomerToConference (handleHumanConfirmed call (some sess)).1 true).2.1
          = true) := by
  refine ⟨rfl, rfl, rfl, ?_⟩
  intro conf h
  simp [handleHumanConfirmed, transferCustomerToConference, h]

/-- C10 witness: a keypress arriving while the call is already
IN_CONFERENCE (a duplicate confirmation) is still accepted and the
rescheduled transfer succeeds again. -/
theorem confirm_from_any_status_witness :
    ({ escalatingCall with humanCallStatus := HumanCallStatus.inConference } : ActiveCall).conferenceName
      = some ("support_s1")
    ∧ ((handleHumanConfirmed
          { escalatingCall with humanCallStatus := HumanCallStatus.inConference }
          (some (SessState.mk (some HumanAgentStatus.connected) false))).1.humanCallStatus
         = HumanCallStatus.confirmed
       ∧ (transferCustomerToConference
            (handleHumanConfirmed
               { escalatingCall with humanCallStatus := HumanCallStatus.inConference }
               (some (SessState.mk (some HumanAgentStatus.connected) false))).1 true).2.1
           = true) :=
  ⟨by decide,
   (confirm_from_any_status
      { escalatingCall with humanCallStatus := HumanCallStatus.inConference }
      (SessState.mk (some HumanAgentStatus.connected) false)).1,
   (confirm_from_any_status
      { escalatingCall with humanCallStatus := HumanCallStatus.inConference }
      (SessState.mk (some HumanAgentStatus.connected) false)).2.2.2 ("support_s1") (by decide)⟩

/-- C7: when a media stream reports stopped, a call in ESCALATING or
IN_CONFERENCE is not torn down — the registry is left unchanged and all
three indices keep their entries — while a call in any other state is
fully deregistered: its call-sid, stream-sid and session-id entries are
removed together. -/
theorem stream_stop_guard (reg : Registry) (callSid : String) (call : ActiveCall)
    (hc : alookup reg.activeCalls callSid = some call) :
    ((call.state = CallState.escalating ∨ call.state = CallState.inConference) →
       streamStop reg callSid = reg)
    ∧ (call.state ≠ CallState.escalating → call.state ≠ CallState.inConference →
       alookup (streamStop reg callSid).activeCalls callSid = none
       ∧ alookup (streamStop reg callSid).sessionToCall call.sessionId = none
       ∧ ∀ s, call.streamSid = some s →
           alookup (streamStop reg callSid).streamToCall s = none) := by
  constructor
  · intro hst
    rcases hst with h | h <;> simp [streamStop, hc, h]
  · intro h1 h2
    have hlook : alookup
        (aset reg.activeCalls callSid { call with state := CallState.ended }) callSid
        = some { call with state := CallState.ended } := alookup_aset_self _ _ _
    have hres : streamStop reg callSid
        = cleanupCall
            { reg with
                activeCalls := aset reg.activeCalls callSid { call with state := CallState.ended } }
            callSid := by
      simp [streamStop, hc, h1, h2, hlook]
    have hlook2 : alookup
        ({ reg with
             activeCalls := aset reg.activeCalls callSid { call with state := CallState.ended }
           } : Registry).activeCalls callSid
        = some { call with state := CallState.ended } := hlook
    rw [hres, cleanupCall]
    simp only [hlook2]
    refine ⟨alookup_aremove_self _ _, alookup_aremove_self _ _, ?_⟩
    intro s hs
    simp only [show ({ call with state := CallState.ended } : ActiveCall).streamSid
        = call.streamSid from rfl, hs]
    exact alookup_aremove_self _ _

/-- C7 witness: with one registered call, a stream stop in IN_CONFERENCE
leaves the registry unchanged, and (by a second application at a call in
AI_CONVERSATION) a stream stop deregisters all three indices. -/
theorem stream_stop_guard_witness :
    alookup ([(("CA1"), { escalatingCall with state := CallState.inConference })] :
        List (String × ActiveCall)) ("CA1")
      = some { escalatingCall with state := CallState.inConference }
    ∧ streamStop
        (Registry.mk
          [(("CA1"), { escalatingCall with state := CallState.inConference })]
          [(("MZ1"), ("CA1"))] [(("s1"), ("CA1"))]) ("CA1")
        = Registry.mk
            [(("CA1"), { escalatingCall with state := CallState.inConference })]
            [(("MZ1"), ("CA1"))] [(("s1"), ("CA1"))]
    ∧ (alookup (streamStop
          (Registry.mk [(("CA1"), freshCall)] [(("MZ1"), ("CA1"))] [(("s1"), ("CA1"))])
          ("CA1")).activeCalls ("CA1") = none
       ∧ alookup (streamStop
            (Registry.mk [(("CA1"), freshCall)] [(("MZ1"), ("CA1"))] [(("s1"), ("CA1"))])
            ("CA1")).sessionToCall freshCall.sessionId = none
       ∧ ∀ s, freshCall.streamSid = some s →
           alookup (streamStop
              (Registry.mk [(("CA1"), freshCall)] [(("MZ1"), ("CA1"))] [(("s1"), ("CA1"))])
              ("CA1")).streamToCall s = none) :=
  ⟨by decide,
   (stream_stop_guard
      (Registry.mk
        [(("CA1"), { escalatingCall with state := CallState.inConference })]
        [(("MZ1"), ("CA1"))] [(("s1"), ("CA1"))]) ("CA1")
      { escalatingCall with state := CallState.inConference } (by decide)).1
     (Or.inr (by decide)),
   (stream_stop_guard
      (Registry.mk [(("CA1"), freshCall)] [(("MZ1"), ("CA1"))] [(("s1"), ("CA1"))]) ("CA1")
      freshCall (by decide)).2 (by decide) (by decide)⟩

/-- C8 counterexample: sync_atomic_updates_to_state does not bound its
conflict retries by MAX_RETRIES = 3: in an execution whose compare-and-set
conflicts three times before succeeding it performs a fourth
re-read/re-apply attempt, in one with ten conflicts it performs an
eleventh, and when every attempt conflicts it never resolves and never
falls back to an unconditional overwrite. -/
theorem sync_retry_unbounded_cex :
    MAX_RETRIES = 3
    ∧ syncAttempts [false, false, false, true] = some 4
    ∧ syncAttempts (List.replicate 10 false ++ [true]) = some 11
    ∧ syncAttempts (List.replicate 10 false) = none := by
  refine ⟨rfl, rfl, ?_, ?_⟩ <;> decide

/-- C8 (amended): the foreground turn writer process_message retries a
conflicted compare-and-set at most MAX_RETRIES = 3 times, re-reading and
re-applying its delta each attempt, and after exhausting the bound falls
back to the unconditional overwrite (logged as an error); the side-channel
merge sync_atomic_updates_to_state, by contrast, re-reads and re-applies
without any bound, resolving only at the first successful compare-and-set
and never falling back to an overwrite. -/
theorem retry_bounds_amended (casResult : Nat → Bool) (n k : Nat) :
    (processMessageSave casResult).1 ≤ MAX_RETRIES
    ∧ ((∀ i, i < MAX_RETRIES → casResult i = false) →
        processMessageSave casResult = (MAX_RETRIES, true))
    ∧ (k < MAX_RETRIES → (∀ i, i < k → casResult i = false) → casResult k = true →
        processMessageSave casResult = (k + 1, false))
    ∧ syncAttempts (List.replicate n false ++ [true]) = some (n + 1) := by
  refine ⟨?_, ?_, ?_, ?_⟩
  · cases h0 : casResult 0 <;> cases h1 : casResult 1 <;> cases h2 : casResult 2 <;>
      simp [processMessageSave, saveWithRetry, MAX_RETRIES, h0, h1, h2]
  · intro hall
    have h0 := hall 0 (by simp [MAX_RETRIES])
    have h1 := hall 1 (by simp [MAX_RETRIES])
    have h2 := hall 2 (by simp [MAX_RETRIES])
    simp [processMessageSave, saveWithRetry, MAX_RETRIES, h0, h1, h2]
  · intro hk hbef hsucc
    match k, hk with
    | 0, _ =>
      simp [processMessageSave, saveWithRetry, MAX_RETRIES, hsucc]
    | 1, _ =>
      have h0 := hbef 0 (by omega)
      simp [processMessageSave, saveWithRetry, MAX_RETRIES, h0, hsucc]
    | 2, _ =>
      have h0 := hbef 0 (by omega)
      have h1 := hbef 1 (by omega)
      simp [processMessageSave, saveWithRetry, MAX_RETRIES, h0, h1, hsucc]
  · induction n with
    | zero => simp [syncAttempts]
    | succ m ih =>
      rw [List.replicate_succ, List.cons_append, syncAttempts]
      simp [ih]

/-- C8 witness: with a conflict on the first attempt and success on the
second, process_message makes two compare-and-set attempts without the
forced overwrite, and a two-conflict environment drives the side-channel
merge to three attempts. -/
theorem retry_bounds_amended_witness :
    ((1 : Nat) < MAX_RETRIES ∧ (∀ i, i < 1 → (fun j => decide (j = 1)) i = false)
      ∧ (fun j => decide (j = 1)) 1 = true)
    ∧ processMessageSave (fun j => decide (j = 1)) = (2, false)
    ∧ syncAttempts (List.replicate 2 false ++ [true]) = some 3 :=
  ⟨⟨by decide, by decide, by decide⟩,
   (retry_bounds_amended (fun j => decide (j = 1)) 2 1).2.2.1 (by decide) (by decide) (by decide),
   (retry_bounds_amended (fun j => decide (j = 1)) 2 1).2.2.2⟩

end CustomerAgent
